import Mathlib

/-!
Verification of the steganography encoder (src/src/main.cpp) against its
natural-language specification. The definitions below are a shallow
embedding of the C++ source: machine-integer arithmetic is modelled on
Nat with explicit reductions modulo 2 ^ 32 (unsigned int / uint32_t) and
2 ^ 64 (size_t) exactly where the source performs it. The headers
image.hpp and random.hpp are not part of the repository snapshot, so the
few facts needed from them (Image::encoded_size and the payload-offset
convention) are modelled from the specification and marked as such.
-/

namespace Stego

/-- Encoding levels from Image::EncodingLevel (Low, Medium, High). -/
inductive EncodingLevel
  | Low
  | Medium
  | High
deriving DecidableEq, Repr

/-- Modelled from the spec: bits of each channel occupied per level
(image.hpp is missing from the snapshot); section 9 fixes
Low = 1 bit/slot, Medium = 2 bits/slot, High = 4 bits/slot. -/
def bitsPerSlot : EncodingLevel → Nat
  | .Low => 1
  | .Medium => 2
  | .High => 4

/-- Modelled from the spec: Image::encoded_size, the number of
channel-slots needed to store n bytes at a level, computed as
ceil(n * 8 / bits_per_slot(level)). -/
def encodedSize (n : Nat) (lvl : EncodingLevel) : Nat :=
  (n * 8 + bitsPerSlot lvl - 1) / bitsPerSlot lvl

/-- sizeof(Header) for the struct at main.cpp lines 16-25: fields
sig[4], uint16 version, uint8 level, uint8 flags, uint32 offset,
uint32 size, name[32], reserved[12]; every field is naturally aligned,
so no padding bytes are inserted and the total is the plain sum. -/
def sizeofHeader : Nat := 4 + 2 + 1 + 1 + 4 + 4 + 32 + 12

/-- Channel-slots occupied by the header when stored at Low level:
Image::encoded_size(sizeof(Header), EncodingLevel::Low). -/
def headerSlots : Nat := encodedSize sizeofHeader EncodingLevel.Low

/-- Total addressable channel-slots: image.w() * image.h() * 4 computed
in unsigned int arithmetic (main.cpp line 48). -/
def totalSlots (w h : Nat) : Nat := w * h * 4 % 2 ^ 32

/-- main.cpp line 48: unsigned int max_size =
w * h * 4 / encoded_size(1, level) - encoded_size(sizeof(Header), Low);
the subtraction wraps modulo 2 ^ 32 because max_size is unsigned int. -/
def maxSize (w h : Nat) (lvl : EncodingLevel) : Nat :=
  (totalSlots w h / encodedSize 1 lvl + 2 ^ 32 - headerSlots) % 2 ^ 32

/-- main.cpp lines 43-46: padded_size = size + 1, rounded up to
(size / 16 + 1) * 16 when not already a multiple of 16. -/
def paddedSize (n : Nat) : Nat :=
  if (n + 1) % 16 ≠ 0 then (n / 16 + 1) * 16 else n + 1

/-- main.cpp lines 58-64: the padded buffer holds the raw bytes followed
by left = padded_size - size copies of the byte left. -/
def buildPadded (orig : List Nat) : List Nat :=
  orig ++ List.replicate (paddedSize orig.length - orig.length)
    (paddedSize orig.length - orig.length)

/-- size_t subtraction: a - b computed modulo 2 ^ 64 (used at main.cpp
line 73 where max_size is promoted to size_t before subtracting
padded_size). -/
def sub64 (a b : Nat) : Nat := (a + 2 ^ 64 - b) % 2 ^ 64

/-- main.cpp line 73: offset =
(offset + encoded_size(sizeof(Header), Low)) % encoded_size(max_size - padded_size, level),
where the incoming offset is the 32-bit random draw r. -/
def offsetChosen (w h : Nat) (lvl : EncodingLevel) (n r : Nat) : Nat :=
  (r + headerSlots) % encodedSize (sub64 (maxSize w h lvl) (paddedSize n)) lvl

/-- Modelled from the spec: the payload offset is counted in
channel-slots relative to the end of the header region (section 3), so
the first absolute channel-slot of the payload is headerSlots + offset. -/
def payloadStart (w h : Nat) (lvl : EncodingLevel) (n r : Nat) : Nat :=
  headerSlots + offsetChosen w h lvl n r

/-- The property claimed for the chosen offset: the payload region starts
at or after the end of the header region and ends within the image. -/
def offsetValid (w h : Nat) (lvl : EncodingLevel) (n r : Nat) : Prop :=
  headerSlots ≤ payloadStart w h lvl n r ∧
  payloadStart w h lvl n r + encodedSize (paddedSize n) lvl ≤ totalSlots w h

instance (w h : Nat) (lvl : EncodingLevel) (n r : Nat) :
    Decidable (offsetValid w h lvl n r) := by
  unfold offsetValid
  exact inferInstance

/-- The in-memory Header struct of main.cpp lines 16-25. Byte-array
fields are lists of byte values; integer fields are Nat values of the
corresponding unsigned machine type. -/
structure Header where
  sig : List Nat
  version : Nat
  level : Nat
  flags : Nat
  offset : Nat
  size : Nat
  name : List Nat
  reserved : List Nat
deriving DecidableEq, Repr

/-- Little-endian byte serialization of a k-byte unsigned integer. -/
def toBytesLE (k v : Nat) : List Nat :=
  (List.range k).map (fun i => v / 256 ^ i % 256)

/-- The byte image of the Header struct as it is handed to
image.encode at main.cpp line 92 (memcpy of the struct: the fields laid
out in declaration order, x86-64 little-endian, no padding because every
field is naturally aligned). -/
def serializeHeader (hd : Header) : List Nat :=
  hd.sig ++ toBytesLE 2 hd.version ++ [hd.level, hd.flags] ++
    toBytesLE 4 hd.offset ++ toBytesLE 4 hd.size ++ hd.name ++ hd.reserved

/-- The magic signature bytes set at main.cpp line 76:
sig = 'H', 'I', 'D', 'E'. -/
def sigMagic : List Nat := [72, 73, 68, 69]

/-- One call to image.encode during an encode run: byte length written,
level used, and the offset argument (0 for the header call, which passes
no offset). -/
structure EmbedCall where
  len : Nat
  lvl : EncodingLevel
  off : Nat
deriving DecidableEq, Repr

/-- Outcome of the encode function of main.cpp lines 32-104. The ok case
records the two image.encode calls of lines 92-93 (header first, then
the padded payload). errCapacity carries max_size / 1024, the value the
error message reports in KiB (line 54). -/
inductive EncodeResult
  | errFileOpen
  | errCapacity (maxKiB : Nat)
  | errRandom
  | errNameTooLong
  | errSave
  | ok (calls : List EmbedCall)
deriving DecidableEq, Repr

/-- Control flow of encode (main.cpp lines 32-104): file open check,
padding arithmetic, capacity check (line 53), random draw (line 68),
offset fold (line 73), filename length check (line 84), the two
image.encode calls (lines 92-93), and image.save (line 99).
fileOk, rand, nameLen and saveOk stand for the external collaborators
(file system, randomness source, image writer). -/
def encodeRun (fileOk : Bool) (n w h : Nat) (lvl : EncodingLevel)
    (rand : Option Nat) (nameLen : Nat) (saveOk : Bool) : EncodeResult :=
  if fileOk = false then .errFileOpen
  else if paddedSize n > maxSize w h lvl then
    .errCapacity (maxSize w h lvl / 1024)
  else
    match rand with
    | none => .errRandom
    | some r =>
      if nameLen > 32 then .errNameTooLong
      else if saveOk = false then .errSave
      else .ok [⟨sizeofHeader, lvl, 0⟩,
                ⟨paddedSize n, lvl, offsetChosen w h lvl n r⟩]

/-- Exit code produced by encode and returned by main (main.cpp lines
36, 55, 70, 86, 101, 103): the error paths return -1, a failed
image.save returns false (the int 0), and success returns true (the
int 1). -/
def encodeRet : EncodeResult → Int
  | .ok _ => 1
  | .errSave => 0
  | _ => -1

/-- Whether an encode run wrote an output image (image.save succeeded,
main.cpp lines 99-102). -/
def outputWritten : EncodeResult → Bool
  | .ok _ => true
  | _ => false

/-- The level a successful encode run used for its first image.encode
call, the one that embeds the header (main.cpp line 92). -/
def headerEmbedLevelOf : EncodeResult → Option EncodingLevel
  | .ok (c :: _) => some c.lvl
  | _ => none

/-- main.cpp line 109: the decoder always reads the header region at
EncodingLevel::Low. -/
def headerReadLevel : EncodingLevel := EncodingLevel.Low

/-- main.cpp lines 141-142: left = data[header.size - 1] read as uint8,
then size = header.size - left computed in unsigned int arithmetic
(wrapping modulo 2 ^ 32); the file write emits the first size bytes of
the decoded payload. No validation of left is performed. -/
def stripWrite (sz : Nat) (data : List Nat) : List Nat :=
  data.take ((sz + 2 ^ 32 - data.getD (sz - 1) 0) % 2 ^ 32)

/-- Outcome of the decode function of main.cpp lines 106-158. -/
inductive DecodeResult
  | errSig
  | errVersion
  | errReserved
  | errFileOpen
  | ok (written : List Nat)
deriving DecidableEq, Repr

/-- Control flow of decode (main.cpp lines 106-158): signature check
(line 113), version check (line 118), reserved-bytes check (line 123),
then payload extraction, padding arithmetic (lines 141-142), output
file open (line 147) and the write of the first size bytes (line 153).
payload stands for the bytes image.decode returns for the header-named
region; fileOk stands for the output-file open succeeding. -/
def decodeRun (hd : Header) (payload : List Nat) (fileOk : Bool) :
    DecodeResult :=
  if hd.sig ≠ sigMagic then .errSig
  else if hd.version ≠ 1 then .errVersion
  else if hd.reserved.any (fun r => r != 0) then .errReserved
  else if fileOk = false then .errFileOpen
  else .ok (stripWrite hd.size payload)

/-- Exit code of decode (main.cpp lines 115, 120, 125, 149, 157):
-1 on every error path, 0 on success. -/
def decodeRet : DecodeResult → Int
  | .ok _ => 0
  | _ => -1

/-- Whether a decode run reached the header-validation errors. -/
def isHeaderErr : DecodeResult → Bool
  | .errSig => true
  | .errVersion => true
  | .errReserved => true
  | _ => false

/-- Whether a decode run wrote an output file. -/
def decodeWrites : DecodeResult → Bool
  | .ok _ => true
  | _ => false

/-! ### Helper lemmas -/

theorem encodedSize_mul (n : Nat) (lvl : EncodingLevel) :
    encodedSize n lvl = n * encodedSize 1 lvl := by
  cases lvl <;> simp [encodedSize, bitsPerSlot] <;> omega

theorem encodedSize_one_pos (lvl : EncodingLevel) : 1 ≤ encodedSize 1 lvl := by
  cases lvl <;> decide

theorem headerSlots_eq : headerSlots = 480 := rfl

theorem totalSlots_lt (w h : Nat) : totalSlots w h < 2 ^ 32 :=
  Nat.mod_lt _ (by norm_num)

theorem maxSize_lt (w h : Nat) (lvl : EncodingLevel) :
    maxSize w h lvl < 2 ^ 32 := by
  unfold maxSize
  exact Nat.mod_lt _ (by norm_num)

theorem maxSize_no_wrap (w h : Nat) (lvl : EncodingLevel)
    (himg : headerSlots ≤ totalSlots w h / encodedSize 1 lvl) :
    maxSize w h lvl = totalSlots w h / encodedSize 1 lvl - headerSlots := by
  have h1 := totalSlots_lt w h
  have h2 : totalSlots w h / encodedSize 1 lvl ≤ totalSlots w h :=
    Nat.div_le_self _ _
  rw [headerSlots_eq] at himg ⊢
  unfold maxSize
  rw [headerSlots_eq]
  generalize totalSlots w h / encodedSize 1 lvl = q at *
  omega

theorem paddedSize_mod (n : Nat) : paddedSize n % 16 = 0 := by
  unfold paddedSize
  split <;> omega

theorem paddedSize_lb (n : Nat) : n + 1 ≤ paddedSize n := by
  unfold paddedSize
  split <;> omega

theorem paddedSize_ub (n : Nat) : paddedSize n ≤ n + 16 := by
  unfold paddedSize
  split <;> omega

theorem getD_replicate_self (k v i : Nat) (h : i < k) :
    (List.replicate k v).getD i 0 = v := by
  rw [List.getD_eq_getElem _ _ (by simpa using h)]
  simp

/-! ### Claim C3: padding law and round trip -/

/-- C3 (confirmed): for every raw input of n bytes small enough to be
representable in the 32-bit header size field, the padded payload built
by encode (main.cpp lines 43-46 and 62-63) has length a multiple of 16
and at least n + 1, the pad length is in [1, 16], every pad byte equals
the pad length, and the decoder trim of main.cpp lines 141-142 recovers
exactly the original bytes. -/
theorem C3_padding_roundtrip (orig : List Nat)
    (hsz : orig.length + 17 ≤ 2 ^ 32) :
    paddedSize orig.length % 16 = 0 ∧
    orig.length + 1 ≤ paddedSize orig.length ∧
    1 ≤ paddedSize orig.length - orig.length ∧
    paddedSize orig.length - orig.length ≤ 16 ∧
    (∀ b ∈ (buildPadded orig).drop orig.length,
      b = paddedSize orig.length - orig.length) ∧
    stripWrite (paddedSize orig.length) (buildPadded orig) = orig := by
  have hlb := paddedSize_lb orig.length
  have hub := paddedSize_ub orig.length
  refine ⟨paddedSize_mod _, hlb, by omega, by omega, ?_, ?_⟩
  · intro b hb
    unfold buildPadded at hb
    rw [List.drop_left] at hb
    exact List.eq_of_mem_replicate hb
  · unfold stripWrite buildPadded
    have hgd : (orig ++ List.replicate (paddedSize orig.length - orig.length)
        (paddedSize orig.length - orig.length)).getD
        (paddedSize orig.length - 1) 0 =
        paddedSize orig.length - orig.length := by
      rw [List.getD_append_right _ _ _ _ (by omega)]
      exact getD_replicate_self _ _ _ (by omega)
    rw [hgd]
    have hcount : (paddedSize orig.length + 2 ^ 32 -
        (paddedSize orig.length - orig.length)) % 2 ^ 32 = orig.length := by
      omega
    rw [hcount]
    exact List.take_left _ _

/-- Witness for C3_padding_roundtrip on the five bytes of "hello". -/
theorem C3_padding_roundtrip_witness :
    ([104, 101, 108, 108, 111] : List Nat).length + 17 ≤ 2 ^ 32 ∧
    stripWrite (paddedSize ([104, 101, 108, 108, 111] : List Nat).length)
      (buildPadded [104, 101, 108, 108, 111]) = [104, 101, 108, 108, 111] :=
  ⟨by decide,
   (C3_padding_roundtrip [104, 101, 108, 108, 111] (by decide)).2.2.2.2.2⟩

/-! ### Claim C4: padding removal on decode -/

/-- C4 (amended): decode reads the last byte of the extracted payload as
the pad length p and writes all but the last p bytes when 1 <= p <= size;
no validation is performed (main.cpp lines 141-142 contain no check and
no CorruptPadding error exists). -/
theorem C4_strip_behavior (data : List Nat) (hlen : data.length < 2 ^ 32)
    (hp1 : 1 ≤ data.getD (data.length - 1) 0)
    (hp2 : data.getD (data.length - 1) 0 ≤ data.length) :
    stripWrite data.length data =
      data.take (data.length - data.getD (data.length - 1) 0) := by
  unfold stripWrite
  have hc : (data.length + 2 ^ 32 - data.getD (data.length - 1) 0) % 2 ^ 32 =
      data.length - data.getD (data.length - 1) 0 := by omega
  rw [hc]

/-- Witness for C4_strip_behavior on the payload 9, 9, 2, 2. -/
theorem C4_strip_behavior_witness :
    (([9, 9, 2, 2] : List Nat).length < 2 ^ 32 ∧
      1 ≤ ([9, 9, 2, 2] : List Nat).getD
        (([9, 9, 2, 2] : List Nat).length - 1) 0 ∧
      ([9, 9, 2, 2] : List Nat).getD (([9, 9, 2, 2] : List Nat).length - 1) 0 ≤
        ([9, 9, 2, 2] : List Nat).length) ∧
    stripWrite ([9, 9, 2, 2] : List Nat).length [9, 9, 2, 2] =
      ([9, 9, 2, 2] : List Nat).take (([9, 9, 2, 2] : List Nat).length -
        ([9, 9, 2, 2] : List Nat).getD (([9, 9, 2, 2] : List Nat).length - 1) 0) :=
  ⟨⟨by decide, by decide, by decide⟩,
   C4_strip_behavior [9, 9, 2, 2] (by decide) (by decide) (by decide)⟩

/-- A header that passes every decode-side validation. -/
def hdrValid : Header :=
  ⟨sigMagic, 1, 0, 0, 480, 4, List.replicate 32 0, List.replicate 12 0⟩

/-- C4 counterexample: on a payload whose pad-length byte is 0, decode
does not abort with a CorruptPadding error; it writes the full
unstripped payload to the output file. -/
theorem C4_no_padding_validation :
    ([1, 2, 3, 0] : List Nat).getD (hdrValid.size - 1) 0 = 0 ∧
    decodeRun hdrValid [1, 2, 3, 0] true = DecodeResult.ok [1, 2, 3, 0] ∧
    decodeWrites (decodeRun hdrValid [1, 2, 3, 0] true) = true := by
  decide

/-! ### Claim C5: capacity on images too small for the header -/

/-- C5 (code bug): for the 8 x 8 RGBA image, too small to hold one
header at Low level, the unsigned int computation of main.cpp line 48
wraps around to 2 ^ 32 - 448 instead of the 0 the spec requires. -/
theorem C5_capacity_wraps :
    maxSize 8 8 EncodingLevel.Low = 2 ^ 32 - 448 ∧
    maxSize 8 8 EncodingLevel.Low ≠ 0 := by
  decide

/-! ### Claim C8: header record size -/

/-- C8 (amended): the serialized header record is a fixed 60-byte record
(not 56): 4-byte magic, 2-byte version, 1-byte level, 1-byte flags,
4-byte offset, 4-byte padded payload size, 32-byte name, 12-byte
reserved block. -/
theorem C8_header_size (hd : Header) (hs : hd.sig.length = 4)
    (hn : hd.name.length = 32) (hr : hd.reserved.length = 12) :
    (serializeHeader hd).length = 60 := by
  simp only [serializeHeader, toBytesLE, List.length_append, List.length_map,
    List.length_range, List.length_cons, List.length_nil, hs, hn, hr]

/-- A concrete header with the field widths of the struct. -/
def hdrExample : Header :=
  ⟨sigMagic, 1, 0, 0, 480, 16, List.replicate 32 0, List.replicate 12 0⟩

/-- C8 counterexample: the serialized header of a concrete Header value
is 60 bytes long, not the 56 bytes the claim states. -/
theorem C8_size_counterexample :
    (serializeHeader hdrExample).length = 60 ∧
    (serializeHeader hdrExample).length ≠ 56 := by
  decide

/-- Witness for C8_header_size at a concrete header. -/
theorem C8_header_size_witness :
    (hdrExample.sig.length = 4 ∧ hdrExample.name.length = 32 ∧
      hdrExample.reserved.length = 12) ∧
    (serializeHeader hdrExample).length = 60 :=
  ⟨⟨by decide, by decide, by decide⟩,
   C8_header_size hdrExample (by decide) (by decide) (by decide)⟩

/-! ### Claim C1: the chosen embedding offset -/

/-- C1 (amended): whenever the image is large enough that the capacity
computation of main.cpp line 48 does not wrap and the padded payload is
strictly below the computed maximum, every random draw yields an offset
that places the payload after the header region and entirely inside the
image channel-slots. -/
theorem C1_offset_valid (w h n r : Nat) (lvl : EncodingLevel)
    (himg : headerSlots ≤ totalSlots w h / encodedSize 1 lvl)
    (hcap : paddedSize n < maxSize w h lvl) :
    offsetValid w h lvl n r := by
  have hT := totalSlots_lt w h
  have hdiv : totalSlots w h / encodedSize 1 lvl ≤ totalSlots w h :=
    Nat.div_le_self _ _
  have hmx : maxSize w h lvl = totalSlots w h / encodedSize 1 lvl - headerSlots :=
    maxSize_no_wrap w h lvl himg
  have hmx32 := maxSize_lt w h lvl
  have hsub : sub64 (maxSize w h lvl) (paddedSize n) =
      maxSize w h lvl - paddedSize n := by
    unfold sub64
    omega
  have hs1 := encodedSize_one_pos lvl
  have hMpos : 0 < encodedSize (sub64 (maxSize w h lvl) (paddedSize n)) lvl := by
    rw [hsub, encodedSize_mul]
    exact Nat.mul_pos (by omega) (by omega)
  have hoff : offsetChosen w h lvl n r <
      encodedSize (sub64 (maxSize w h lvl) (paddedSize n)) lvl :=
    Nat.mod_lt _ hMpos
  constructor
  · exact Nat.le_add_right _ _
  · unfold payloadStart
    rw [hsub] at hoff
    rw [encodedSize_mul (maxSize w h lvl - paddedSize n)] at hoff
    rw [encodedSize_mul (paddedSize n)]
    have hsum : (maxSize w h lvl - paddedSize n) * encodedSize 1 lvl +
        paddedSize n * encodedSize 1 lvl = maxSize w h lvl * encodedSize 1 lvl := by
      rw [← Nat.add_mul, Nat.sub_add_cancel (Nat.le_of_lt hcap)]
    have hsubmul : maxSize w h lvl * encodedSize 1 lvl =
        (totalSlots w h / encodedSize 1 lvl) * encodedSize 1 lvl -
          headerSlots * encodedSize 1 lvl := by
      rw [hmx, Nat.sub_mul]
    have h5 : (totalSlots w h / encodedSize 1 lvl) * encodedSize 1 lvl ≤
        totalSlots w h := Nat.div_mul_le_self _ _
    have h6 : headerSlots * encodedSize 1 lvl ≤
        (totalSlots w h / encodedSize 1 lvl) * encodedSize 1 lvl :=
      Nat.mul_le_mul_right _ himg
    have h8 : headerSlots ≤ headerSlots * encodedSize 1 lvl :=
      Nat.le_mul_of_pos_right _ (by omega)
    omega

/-- Witness for C1_offset_valid on a 64 x 64 RGBA image with a 10-byte
input and the random draw 12345. -/
theorem C1_offset_valid_witness :
    (headerSlots ≤ totalSlots 64 64 / encodedSize 1 EncodingLevel.Low ∧
      paddedSize 10 < maxSize 64 64 EncodingLevel.Low) ∧
    offsetValid 64 64 EncodingLevel.Low 10 12345 :=
  ⟨⟨by decide, by decide⟩,
   C1_offset_valid 64 64 10 12345 EncodingLevel.Low (by decide) (by decide)⟩

/-- C1 counterexample: on an 8 x 8 RGBA image with a 15-byte input the
capacity check passes (because line 48 wrapped), yet the offset chosen
for the draw 0 places the payload outside the 256 available
channel-slots. -/
theorem C1_offset_counterexample :
    paddedSize 15 ≤ maxSize 8 8 EncodingLevel.Low ∧
    ¬ offsetValid 8 8 EncodingLevel.Low 15 0 := by
  decide

/-! ### Claim C10: the modulus of the offset fold -/

/-- C10 (amended): whenever the capacity check passes strictly, the
modulus encoded_size(max_size - padded_size, level) of main.cpp line 73
is nonzero. -/
theorem C10_modulus_positive (w h n : Nat) (lvl : EncodingLevel)
    (hcap : paddedSize n < maxSize w h lvl) :
    0 < encodedSize (sub64 (maxSize w h lvl) (paddedSize n)) lvl := by
  have hmx32 := maxSize_lt w h lvl
  have hsub : sub64 (maxSize w h lvl) (paddedSize n) =
      maxSize w h lvl - paddedSize n := by
    unfold sub64
    omega
  have hs1 := encodedSize_one_pos lvl
  rw [hsub, encodedSize_mul]
  exact Nat.mul_pos (by omega) (by omega)

/-- Witness for C10_modulus_positive on a 64 x 64 image, Low level,
10-byte input. -/
theorem C10_modulus_positive_witness :
    paddedSize 10 < maxSize 64 64 EncodingLevel.Low ∧
    0 < encodedSize (sub64 (maxSize 64 64 EncodingLevel.Low) (paddedSize 10))
      EncodingLevel.Low :=
  ⟨by decide, C10_modulus_positive 64 64 10 EncodingLevel.Low (by decide)⟩

/-- C10 counterexample: on a 32 x 31 image with a 15-byte input the
padded size equals the computed maximum, the capacity check of main.cpp
line 53 passes, and the modulus of line 73 evaluates to 0, so the fold
divides by zero. -/
theorem C10_modulus_zero :
    paddedSize 15 ≤ maxSize 32 31 EncodingLevel.Low ∧
    encodedSize (sub64 (maxSize 32 31 EncodingLevel.Low) (paddedSize 15))
      EncodingLevel.Low = 0 := by
  decide

/-! ### Claim C6: capacity exceeded error -/

/-- C6 (confirmed): whenever the padded payload size exceeds the
computed maximum, encode fails with the capacity error reporting the
maximum usable size (max_size / 1024 KiB, main.cpp lines 53-56), writes
no output image and performs no embedding. -/
theorem C6_capacity_error (n w h : Nat) (lvl : EncodingLevel)
    (rand : Option Nat) (nameLen : Nat) (saveOk : Bool)
    (hcap : paddedSize n > maxSize w h lvl) :
    encodeRun true n w h lvl rand nameLen saveOk =
      EncodeResult.errCapacity (maxSize w h lvl / 1024) ∧
    outputWritten (encodeRun true n w h lvl rand nameLen saveOk) = false := by
  unfold encodeRun
  rw [if_neg (by decide), if_pos hcap]
  exact ⟨rfl, rfl⟩

/-- Witness for C6_capacity_error: a 32 x 30 image has computed maximum
0 at Low level, so a 10-byte input (16 padded) must be rejected. -/
theorem C6_capacity_error_witness :
    paddedSize 10 > maxSize 32 30 EncodingLevel.Low ∧
    encodeRun true 10 32 30 EncodingLevel.Low (some 5) 4 true =
      EncodeResult.errCapacity (maxSize 32 30 EncodingLevel.Low / 1024) ∧
    outputWritten (encodeRun true 10 32 30 EncodingLevel.Low (some 5) 4 true) =
      false :=
  ⟨by decide,
   (C6_capacity_error 10 32 30 EncodingLevel.Low (some 5) 4 true (by decide)).1,
   (C6_capacity_error 10 32 30 EncodingLevel.Low (some 5) 4 true (by decide)).2⟩

/-! ### Claim C7: header validation on decode -/

/-- C7 (confirmed): decode validates the 4-byte magic exactly, the
version exactly and the 12-byte reserved block for all-zero (main.cpp
lines 113-128); any violation stops decoding with a header error before
any payload is written. -/
theorem C7_header_validation (hd : Header) (payload : List Nat) (fileOk : Bool)
    (hbad : hd.sig ≠ sigMagic ∨ hd.version ≠ 1 ∨ ∃ b ∈ hd.reserved, b ≠ 0) :
    isHeaderErr (decodeRun hd payload fileOk) = true ∧
    decodeWrites (decodeRun hd payload fileOk) = false := by
  unfold decodeRun
  rcases hbad with hs | hv | ⟨b, hb, hbne⟩
  · rw [if_pos hs]
    exact ⟨rfl, rfl⟩
  · by_cases hs : hd.sig ≠ sigMagic
    · rw [if_pos hs]
      exact ⟨rfl, rfl⟩
    · rw [if_neg hs, if_pos hv]
      exact ⟨rfl, rfl⟩
  · by_cases hs : hd.sig ≠ sigMagic
    · rw [if_pos hs]
      exact ⟨rfl, rfl⟩
    · by_cases hv : hd.version ≠ 1
      · rw [if_neg hs, if_pos hv]
        exact ⟨rfl, rfl⟩
      · have hres : hd.reserved.any (fun x => x != 0) = true :=
          List.any_eq_true.mpr ⟨b, hb, by simpa using hbne⟩
        rw [if_neg hs, if_neg hv, if_pos hres]
        exact ⟨rfl, rfl⟩

/-- A header with an unsupported version and otherwise valid fields. -/
def hdrBadVersion : Header :=
  ⟨sigMagic, 2, 0, 0, 0, 4, List.replicate 32 0, List.replicate 12 0⟩

/-- Witness for C7_header_validation on a header with version 2. -/
theorem C7_header_validation_witness :
    (hdrBadVersion.sig ≠ sigMagic ∨ hdrBadVersion.version ≠ 1 ∨
      ∃ b ∈ hdrBadVersion.reserved, b ≠ 0) ∧
    isHeaderErr (decodeRun hdrBadVersion [1, 2, 3, 1] true) = true ∧
    decodeWrites (decodeRun hdrBadVersion [1, 2, 3, 1] true) = false :=
  ⟨Or.inr (Or.inl (by decide)),
   (C7_header_validation hdrBadVersion [1, 2, 3, 1] true
     (Or.inr (Or.inl (by decide)))).1,
   (C7_header_validation hdrBadVersion [1, 2, 3, 1] true
     (Or.inr (Or.inl (by decide)))).2⟩

/-! ### Claim C2: level used for the header region -/

/-- C2 (code bug): with payload level Medium, the encode run embeds the
header with its first image.encode call at level Medium (main.cpp line
92 passes the payload level), while the decoder always reads the header
region at Low (main.cpp line 109), so the two sides disagree for every
non-Low payload level. -/
theorem C2_header_level_mismatch :
    encodeRun true 10 64 64 EncodingLevel.Medium (some 0) 5 true =
      EncodeResult.ok [⟨sizeofHeader, EncodingLevel.Medium, 0⟩,
        ⟨16, EncodingLevel.Medium, 480⟩] ∧
    headerEmbedLevelOf
        (encodeRun true 10 64 64 EncodingLevel.Medium (some 0) 5 true) =
      some EncodingLevel.Medium ∧
    headerReadLevel = EncodingLevel.Low ∧
    some EncodingLevel.Medium ≠ some headerReadLevel := by
  decide

/-- A valid header for the decode leg of the exit-status claim. -/
def hdrRoundTrip : Header :=
  ⟨sigMagic, 1, 0, 0, 480, 16, List.replicate 32 0, List.replicate 12 0⟩

/-! ### Claim C9: process exit status -/

/-- C9 (code bug): a fully successful encode run returns true, the int
1, and an encode run whose image save fails returns false, the int 0
(main.cpp lines 97-103), so the process exits nonzero on success and
zero on a failed save; decode does return 0 on success. -/
theorem C9_exit_codes :
    encodeRet (encodeRun true 10 64 64 EncodingLevel.Low (some 0) 5 true) = 1 ∧
    encodeRet (encodeRun true 10 64 64 EncodingLevel.Low (some 0) 5 false) = 0 ∧
    decodeRet (decodeRun hdrRoundTrip (List.replicate 16 1) true) = 0 := by
  decide

end Stego
